import Mathlib

/-!
Verification development for the social-media reporting script (src/app.py).

The script is a one-shot pandas pipeline: rename columns, coerce numeric
columns, normalize categorical columns, derive engagement and boolean facets,
group by brand (× dimension) per content scope, compute metrics, rank brands,
and export.  Everything below is a shallow embedding of that pipeline:
numbers are exact rationals (the script's float arithmetic on these small
integer-valued columns is exact), a pandas frame is a list of rows, the
undefined engagement rate is `Option.none`, and a fatal pandas exception is
`Except.error`.
-/

namespace App

/-! ### Configuration (src/app.py lines 33-43) -/

def PRIORITY_BRANDS : List String :=
  ["Similac", "Ensure", "Pediasure", "Pedialyte", "Juven", "Glucerna"]

/-- Header rename mapping (src/app.py lines 55-63).  `df.rename` in pandas
silently ignores mapping keys that are absent from the frame, and leaves
columns that are not mapping keys unchanged. -/
def RENAME_PAIRS : List (String × String) :=
  [("Social Channel/Platform", "platform"),
   ("Brand Name/Category Name", "brand"),
   ("Type of Post (Branded, Influencer,Creators, Organic, Shop)", "post_type"),
   ("Post Format (Video, Reels, Shorts, Images, Carousels)", "format"),
   ("Video Plays", "views"),
   ("Followers", "followers"),
   ("Influencer Tier", "influencer_tier")]

/-- Columns accessed by the numeric-coercion loop (src/app.py line 65), in
loop order. -/
def NUMERIC_COLS : List String := ["Likes", "Comments", "views", "followers"]

/-- Alias substitution for post_type (src/app.py lines 76-79).
pandas .replace with a dict substitutes exact full cell values. -/
def postTypeAliases : List (String × String) :=
  [("Tagged", "Influencer"), ("Creators", "Creator")]

/-- Alias substitution for format (src/app.py lines 86-91). -/
def formatAliases : List (String × String) :=
  [("Reels", "Shorts"), ("Images", "Image"),
   ("Sidecar", "Carousel"), ("Image+Video", "Carousel")]

def DYNAMIC_FORMATS : List String := ["Video", "Shorts"]

def PAID_TYPES : List String := ["Branded", "Influencer", "Creator", "Shop"]

/-! ### Raw input cells and rows -/

/-- A raw numeric cell, as seen by pandas `to_numeric(errors="coerce")`:
either a value pandas can parse as a number (numeric cell or numeric
string), or anything else (text, blank, missing), which coerces to NaN. -/
inductive RawCell where
  | num (v : ℚ)
  | na
  deriving DecidableEq

/-- One row of the uploaded spreadsheet, after the header rename.
Categorical cells are `Option String`: `none` models a missing (NaN) cell. -/
structure RawRow where
  platform : String
  brand : Option String
  post_type : Option String
  format : Option String
  likes : RawCell
  comments : RawCell
  views : RawCell
  followers : RawCell
  week : Nat
  influencer_tier : String
  deriving DecidableEq

/-- `pd.to_numeric(col, errors="coerce").fillna(0)` on one cell
(src/app.py line 66): a parsed number is kept as-is (including negative
values), everything unparseable becomes NaN and then 0. -/
def coerceCell : RawCell → ℚ
  | .num v => v
  | .na => 0

/-- `astype(str)` on one cell: a missing value stringifies to the literal
"nan"; a present string is unchanged. -/
def pyStr : Option String → String
  | none => "nan"
  | some s => s

/-- Python `str.strip()`: drop surrounding whitespace. -/
def pyStrip (s : String) : String :=
  ⟨((s.data.dropWhile Char.isWhitespace).reverse.dropWhile Char.isWhitespace).reverse⟩

/-- Helper for `str.title()`: the Bool tracks whether the previous character
was a letter (a cased character). -/
def titleAux : Bool → List Char → List Char
  | _, [] => []
  | prevAlpha, c :: cs =>
    if c.isAlpha then
      (if prevAlpha then c.toLower else c.toUpper) :: titleAux true cs
    else
      c :: titleAux false cs

/-- Python `str.title()`: uppercase each letter that follows a non-letter,
lowercase every other letter, leave non-letters alone.  (Modelled for the
ASCII alphabet used by this data.) -/
def pyTitle (s : String) : String := ⟨titleAux false s.data⟩

/-- pandas `.replace(dict)` on one cell: substitute the cell when it equals
an alias key exactly, otherwise pass it through unchanged. -/
def applyAliases (aliases : List (String × String)) (s : String) : String :=
  match aliases.lookup s with
  | some t => t
  | none => s

/-! ### Normalized rows (the frame after src/app.py line 95) -/

structure Row where
  platform : String
  brand : String
  post_type : String
  format : String
  likes : ℚ
  comments : ℚ
  views : ℚ
  followers : ℚ
  engagement : ℚ
  week : Nat
  influencer_tier : String
  deriving DecidableEq

/-- `df["is_dynamic"]` (src/app.py line 94). -/
def Row.is_dynamic (r : Row) : Bool := decide (r.format ∈ DYNAMIC_FORMATS)

/-- `df["is_paid"]` (src/app.py line 95). -/
def Row.is_paid (r : Row) : Bool := decide (r.post_type ∈ PAID_TYPES)

/-- The whole per-row normalization (src/app.py lines 65-92):
numeric coercion, engagement = Likes + Comments, brand strip+title,
post_type title+alias (no strip), format title+alias (no strip). -/
def normalizeRow (r : RawRow) : Row :=
  let likes := coerceCell r.likes
  let comments := coerceCell r.comments
  { platform := r.platform
    brand := pyTitle (pyStrip (pyStr r.brand))
    post_type := applyAliases postTypeAliases (pyTitle (pyStr r.post_type))
    format := applyAliases formatAliases (pyTitle (pyStr r.format))
    likes := likes
    comments := comments
    views := coerceCell r.views
    followers := coerceCell r.followers
    engagement := likes + comments
    week := r.week
    influencer_tier := r.influencer_tier }

/-! ### Column presence (src/app.py lines 55-66)

The script has no custom error class.  `df.rename` ignores absent keys, and
the first `df[c]` access in the coercion loop on a frame lacking column `c`
raises pandas `KeyError(c)` — modelled by `ColError.keyErr c`. -/

inductive ColError where
  | keyErr (col : String)
  deriving DecidableEq

/-- Post-rename header list: pandas `df.rename(columns=...)`. -/
def renameColumns (cols : List String) : List String :=
  cols.map (fun c => (RENAME_PAIRS.lookup c).getD c)

/-- The coercion loop's column accesses, in order: the first absent column
raises `KeyError`. -/
def accessColumns : List String → List String → Except ColError Unit
  | [], _ => .ok ()
  | c :: cs, cols =>
    if cols.contains c then accessColumns cs cols else .error (.keyErr c)

/-- The load/standardize/coerce stage of the run: on any missing required
column the run aborts with the pandas error before any table is built. -/
def loadTable (rawCols : List String) (rows : List RawRow) :
    Except ColError (List Row) :=
  match accessColumns NUMERIC_COLS (renameColumns rawCols) with
  | .error e => .error e
  | .ok _ => .ok (rows.map normalizeRow)

/-! ### Metric functions (src/app.py lines 117-144) -/

def sumEng (x : List Row) : ℚ := (x.map Row.engagement).sum
def sumViews (x : List Row) : ℚ := (x.map Row.views).sum
def sumFoll (x : List Row) : ℚ := (x.map Row.followers).sum

/-- Engagement summed over the dynamic-format subset of a group
(src/app.py line 118). -/
def dynEng (x : List Row) : ℚ := sumEng (x.filter Row.is_dynamic)

/-- Views summed over the dynamic-format subset of a group
(src/app.py line 119). -/
def dynViews (x : List Row) : ℚ := sumViews (x.filter Row.is_dynamic)

structure OverallMetrics where
  totalPosts : Nat
  totalEngagement : ℚ
  videoEngagement : ℚ
  totalViews : ℚ
  avgER : Option ℚ
  deriving DecidableEq

/-- `overall_metrics` (src/app.py lines 117-127). -/
def overall_metrics (x : List Row) : OverallMetrics :=
  let video_eng := dynEng x
  let video_views := dynViews x
  { totalPosts := x.length
    totalEngagement := sumEng x
    videoEngagement := video_eng
    totalViews := video_views
    avgER := if 0 < video_views then some (video_eng / video_views) else none }

structure FormatMetrics where
  postCount : Nat
  avgER : Option ℚ
  deriving DecidableEq

/-- `format_metrics` (src/app.py lines 129-144).  The source reads the
group's format from its first row (`iloc[0]`), which errors on an empty
frame; groupby never produces one, and the embedding returns `none` there. -/
def format_metrics (x : List Row) : Option FormatMetrics :=
  match x with
  | [] => none
  | r0 :: _ =>
    let er :=
      if r0.format ∈ DYNAMIC_FORMATS then
        if 0 < sumViews x then some (sumEng x / sumViews x) else none
      else
        if 0 < sumFoll x then some (sumEng x / sumFoll x) else none
    some { postCount := x.length, avgER := er }

/-! ### Brand ordering (src/app.py lines 101-111)

`sort_brands` builds a priority key (list index, or list length for brands
off the list) and runs `df.sort_values(by=[__priority, volume_col],
ascending=[True, False])`.  A pandas multi-key sort is a stable
lexicographic sort, so the embedding is insertion sort — the stable sort —
by the total preorder "priority ascending, then volume descending". -/

/-- The `__priority` column (src/app.py lines 103-106). -/
def priorityKey (b : String) : Nat :=
  if b ∈ PRIORITY_BRANDS then PRIORITY_BRANDS.indexOf b else PRIORITY_BRANDS.length

/-- The sort key order: priority ascending, volume descending. -/
def rankLe {α β : Type} [LinearOrder β] (brandOf : α → String) (vol : α → β)
    (a b : α) : Prop :=
  priorityKey (brandOf a) < priorityKey (brandOf b) ∨
    (priorityKey (brandOf a) = priorityKey (brandOf b) ∧ vol b ≤ vol a)

instance {α β : Type} [LinearOrder β] (brandOf : α → String) (vol : α → β) :
    DecidableRel (rankLe brandOf vol) := fun a b =>
  decidable_of_iff
    (priorityKey (brandOf a) < priorityKey (brandOf b) ∨
      (priorityKey (brandOf a) = priorityKey (brandOf b) ∧ vol b ≤ vol a))
    Iff.rfl

/-- `sort_brands` (src/app.py lines 101-111): the stable sort of the rows by
priority ascending then the designated volume column descending. -/
def sortBrands {α β : Type} [LinearOrder β] (brandOf : α → String)
    (vol : α → β) (rows : List α) : List α :=
  List.insertionSort (rankLe brandOf vol) rows

theorem rankLe_total {α β : Type} [LinearOrder β] (brandOf : α → String)
    (vol : α → β) (a b : α) : rankLe brandOf vol a b ∨ rankLe brandOf vol b a := by
  unfold rankLe
  rcases Nat.lt_trichotomy (priorityKey (brandOf a)) (priorityKey (brandOf b)) with h | h | h
  · exact Or.inl (Or.inl h)
  · rcases le_total (vol a) (vol b) with hv | hv
    · exact Or.inr (Or.inr ⟨h.symm, hv⟩)
    · exact Or.inl (Or.inr ⟨h, hv⟩)
  · exact Or.inr (Or.inl h)

theorem rankLe_trans {α β : Type} [LinearOrder β] (brandOf : α → String)
    (vol : α → β) (a b c : α) (hab : rankLe brandOf vol a b)
    (hbc : rankLe brandOf vol b c) : rankLe brandOf vol a c := by
  unfold rankLe at *
  rcases hab with h1 | ⟨h1, hv1⟩ <;> rcases hbc with h2 | ⟨h2, hv2⟩
  · exact Or.inl (h1.trans h2)
  · exact Or.inl (h2 ▸ h1)
  · exact Or.inl (h1 ▸ h2)
  · exact Or.inr ⟨h1.trans h2, hv2.trans hv1⟩

/-! Stability of insertion sort, phrased as: filtering the output to any one
sort-key class gives exactly the same list as filtering the input. -/

theorem filter_orderedInsert_of_pos {α : Type} (r : α → α → Prop) [DecidableRel r]
    (p : α → Bool) (a : α) (l : List α) (hpa : p a = true)
    (hrel : ∀ b, p b = true → r a b) :
    (List.orderedInsert r a l).filter p = a :: l.filter p := by
  induction l with
  | nil => simp [List.orderedInsert, hpa]
  | cons b t ih =>
    by_cases h1 : r a b
    · simp [List.orderedInsert, h1, List.filter_cons, hpa]
    · have hpb : p b = false := by
        cases hb : p b
        · rfl
        · exact absurd (hrel b hb) h1
      simp [List.orderedInsert, h1, List.filter_cons, hpb, ih]

theorem filter_orderedInsert_of_neg {α : Type} (r : α → α → Prop) [DecidableRel r]
    (p : α → Bool) (a : α) (l : List α) (hpa : p a = false) :
    (List.orderedInsert r a l).filter p = l.filter p := by
  induction l with
  | nil => simp [List.orderedInsert, hpa]
  | cons b t ih =>
    by_cases h1 : r a b
    · simp [List.orderedInsert, h1, List.filter_cons, hpa]
    · simp [List.orderedInsert, h1, List.filter_cons, ih]

theorem filter_insertionSort {α : Type} (r : α → α → Prop) [DecidableRel r]
    (p : α → Bool) (hp : ∀ a b, p a = true → p b = true → r a b) (l : List α) :
    (List.insertionSort r l).filter p = l.filter p := by
  induction l with
  | nil => rfl
  | cons a t ih =>
    show (List.orderedInsert r a (List.insertionSort r t)).filter p = _
    cases hpa : p a
    · rw [filter_orderedInsert_of_neg r p a _ hpa, ih, List.filter_cons, hpa]
      simp
    · rw [filter_orderedInsert_of_pos r p a _ hpa (fun b hb => hp a b hpa hb), ih,
        List.filter_cons, hpa]
      simp

theorem sortBrands_perm {α β : Type} [LinearOrder β] (brandOf : α → String)
    (vol : α → β) (rows : List α) : (sortBrands brandOf vol rows).Perm rows :=
  List.perm_insertionSort _ rows

theorem sortBrands_sorted {α β : Type} [LinearOrder β] (brandOf : α → String)
    (vol : α → β) (rows : List α) :
    (sortBrands brandOf vol rows).Sorted (rankLe brandOf vol) := by
  haveI : IsTotal α (rankLe brandOf vol) := ⟨rankLe_total brandOf vol⟩
  haveI : IsTrans α (rankLe brandOf vol) :=
    ⟨fun a b c => rankLe_trans brandOf vol a b c⟩
  exact List.sorted_insertionSort _ rows

/-- Stability of `sort_brands`: rows that tie on the whole sort key (same
priority, same volume) keep their original relative order. -/
theorem sortBrands_stable {α β : Type} [LinearOrder β] (brandOf : α → String)
    (vol : α → β) (rows : List α) (pk : Nat) (v : β) :
    (sortBrands brandOf vol rows).filter
        (fun a => decide (priorityKey (brandOf a) = pk ∧ vol a = v)) =
      rows.filter (fun a => decide (priorityKey (brandOf a) = pk ∧ vol a = v)) := by
  apply filter_insertionSort
  intro a b ha hb
  rw [decide_eq_true_eq] at ha hb
  exact Or.inr ⟨ha.1.trans hb.1.symm, hb.2.le.trans ha.2.ge⟩

/-- A brand is on the priority list exactly when its priority key is below
the list length. -/
theorem priorityKey_lt_iff (b : String) :
    priorityKey b < PRIORITY_BRANDS.length ↔ b ∈ PRIORITY_BRANDS := by
  unfold priorityKey
  by_cases h : b ∈ PRIORITY_BRANDS
  · simp [h, List.indexOf_lt_length.mpr h]
  · simp [h]

/-- The pairwise ordering guarantee of a ranked table: a row never precedes
a priority row unless it is itself priority, priority rows are in list-index
order, non-priority rows are in volume-descending order. -/
def rankedAbove {α β : Type} [LinearOrder β] (brandOf : α → String)
    (vol : α → β) (a b : α) : Prop :=
  (brandOf b ∈ PRIORITY_BRANDS → brandOf a ∈ PRIORITY_BRANDS) ∧
  (brandOf a ∈ PRIORITY_BRANDS → brandOf b ∈ PRIORITY_BRANDS →
    priorityKey (brandOf a) ≤ priorityKey (brandOf b)) ∧
  (brandOf a ∉ PRIORITY_BRANDS → brandOf b ∉ PRIORITY_BRANDS → vol b ≤ vol a)

theorem rankLe_implies_rankedAbove {α β : Type} [LinearOrder β]
    (brandOf : α → String) (vol : α → β) (a b : α)
    (h : rankLe brandOf vol a b) : rankedAbove brandOf vol a b := by
  have hlen : ∀ s : String, s ∉ PRIORITY_BRANDS →
      priorityKey s = PRIORITY_BRANDS.length := by
    intro s hs; unfold priorityKey; simp [hs]
  refine ⟨?_, ?_, ?_⟩
  · intro hb
    rw [← priorityKey_lt_iff] at hb ⊢
    rcases h with h | ⟨h, _⟩
    · exact h.trans hb
    · exact h ▸ hb
  · intro _ _
    rcases h with h | ⟨h, _⟩
    · exact h.le
    · exact h.le
  · intro ha hb
    rcases h with h | ⟨_, hv⟩
    · rw [hlen _ ha, hlen _ hb] at h
      exact absurd h (lt_irrefl _)
    · exact hv

theorem sortBrands_pairwise_rankedAbove {α β : Type} [LinearOrder β]
    (brandOf : α → String) (vol : α → β) (rows : List α) :
    (sortBrands brandOf vol rows).Pairwise (rankedAbove brandOf vol) :=
  (sortBrands_sorted brandOf vol rows).imp
    (fun h => rankLe_implies_rankedAbove _ _ _ _ h)

/-! ### Grouping (pandas `groupby`)

`df.groupby(keys)` with the default `sort=True` yields the groups in
ascending key order (strings compared lexicographically by code point,
tuples lexicographically), each group holding its rows in original order. -/

/-- Code-point lexicographic strict order on char lists (Python string
comparison, used by pandas when sorting group keys). -/
def charsLt : List Char → List Char → Bool
  | [], [] => false
  | [], _ :: _ => true
  | _ :: _, [] => false
  | c :: cs, d :: ds =>
    if c.toNat < d.toNat then true
    else if d.toNat < c.toNat then false
    else charsLt cs ds

def strLt (a b : String) : Bool := charsLt a.data b.data

def strLeB (a b : String) : Bool := strLt a b || a == b

def strPairLeB (a b : String × String) : Bool :=
  strLt a.1 b.1 || (a.1 == b.1 && strLeB a.2 b.2)

def brandWeekLeB (a b : String × Nat) : Bool :=
  strLt a.1 b.1 || (a.1 == b.1 && decide (a.2 ≤ b.2))

/-- `rows.groupby(keyOf)` with sorted keys: the distinct keys in ascending
`leB` order, each paired with the rows carrying that key, in input order. -/
def groupPairs {κ : Type} [DecidableEq κ] (leB : κ → κ → Bool)
    (keyOf : Row → κ) (rows : List Row) : List (κ × List Row) :=
  (List.insertionSort (fun x y => leB x y = true) ((rows.map keyOf).dedup)).map
    (fun k => (k, rows.filter (fun r => decide (keyOf r = k))))

/-! ### Content scopes (src/app.py lines 150-156) -/

def paidScope (df : List Row) : List Row := df.filter Row.is_paid
def organicScope (df : List Row) : List Row :=
  df.filter (fun r => decide (r.post_type = "Organic"))
def brandedScope (df : List Row) : List Row :=
  df.filter (fun r => decide (r.post_type = "Branded"))
def influencerScope (df : List Row) : List Row :=
  df.filter (fun r => decide (r.post_type = "Influencer"))
def creatorScope (df : List Row) : List Row :=
  df.filter (fun r => decide (r.post_type = "Creator"))

/-- The five post_type values that place a row in at least one scope. -/
def SCOPED_TYPES : List String :=
  ["Organic", "Branded", "Influencer", "Creator", "Shop"]

/-- The rows feeding Influencer_Tier_Analysis (src/app.py line 223). -/
def tierSourceRows (df : List Row) : List Row :=
  df.filter (fun r => decide (r.post_type = "Influencer"))

/-! ### Per-scope tables (src/app.py lines 164-229)

Every grouped table below is ranked through `sort_brands` with volume
column "Total Posts" — except the Weekly table (line 216), which is stored
exactly as `groupby` produced it. -/

def overallTable (sdf : List Row) : List (String × OverallMetrics) :=
  (groupPairs strLeB Row.brand sdf).map (fun g => (g.1, overall_metrics g.2))

def typeTable (sdf : List Row) : List ((String × String) × OverallMetrics) :=
  (groupPairs strPairLeB (fun r => (r.brand, r.post_type)) sdf).map
    (fun g => (g.1, overall_metrics g.2))

def sourceTable (sdf : List Row) : List ((String × String) × OverallMetrics) :=
  (groupPairs strPairLeB (fun r => (r.brand, r.platform)) sdf).map
    (fun g => (g.1, overall_metrics g.2))

def weeklyTable (sdf : List Row) : List ((String × Nat) × OverallMetrics) :=
  (groupPairs brandWeekLeB (fun r => (r.brand, r.week)) sdf).map
    (fun g => (g.1, overall_metrics g.2))

def tierTable (df : List Row) : List ((String × String) × OverallMetrics) :=
  (groupPairs strPairLeB (fun r => (r.brand, r.influencer_tier))
      (tierSourceRows df)).map
    (fun g => (g.1, overall_metrics g.2))

/-- `outputs[scope + "_Brand_Overall"]` (src/app.py lines 167-168). -/
def brandOverallOut (sdf : List Row) : List (String × OverallMetrics) :=
  sortBrands Prod.fst (fun g => g.2.totalPosts) (overallTable sdf)

/-- `outputs[scope + "_Brand_Type"]` (src/app.py lines 207-208). -/
def brandTypeOut (sdf : List Row) : List ((String × String) × OverallMetrics) :=
  sortBrands (fun g => g.1.1) (fun g => g.2.totalPosts) (typeTable sdf)

/-- `outputs[scope + "_Brand_Source"]` (src/app.py lines 211-212). -/
def brandSourceOut (sdf : List Row) : List ((String × String) × OverallMetrics) :=
  sortBrands (fun g => g.1.1) (fun g => g.2.totalPosts) (sourceTable sdf)

/-- `outputs[scope + "_Brand_Weekly"]` (src/app.py lines 215-216): stored
without a `sort_brands` call. -/
def brandWeeklyOut (sdf : List Row) : List ((String × Nat) × OverallMetrics) :=
  weeklyTable sdf

/-- `outputs["Influencer_Tier_Analysis"]` (src/app.py lines 222-229). -/
def influencerTierOut (df : List Row) : List ((String × String) × OverallMetrics) :=
  sortBrands (fun g => g.1.1) (fun g => g.2.totalPosts) (tierTable df)

/-! ### The two format pivot tables (src/app.py lines 171-204)

`format_long` is the (brand, format) grouped table; the two wide tables
pivot it with index=brand and columns=format.  pandas pivot_table emits
index values and columns in ascending sorted order. -/

/-- `format_long` (src/app.py lines 171-175).  Groups are nonempty, so
`format_metrics` never returns `none` here; `filterMap` realizes that. -/
def formatLong (sdf : List Row) : List ((String × String) × FormatMetrics) :=
  (groupPairs strPairLeB (fun r => (r.brand, r.format)) sdf).filterMap
    (fun g => (format_metrics g.2).map (fun m => (g.1, m)))

/-- Distinct values in ascending code-point order, as a pandas pivot emits
its index values and columns. -/
def sortedStrings (l : List String) : List String :=
  List.insertionSort (fun x y => strLeB x y = true) l.dedup

/-- One cell of the Post Count pivot (aggfunc="sum" over the at most one
matching long row, fill_value=0 for absent (brand, format) combinations). -/
def postCountCell (long : List ((String × String) × FormatMetrics))
    (b f : String) : Nat :=
  ((long.filter (fun e => decide (e.1 = (b, f)))).map (fun e => e.2.postCount)).sum

/-- `format_post_count` (src/app.py lines 178-188): one row per brand, one
column per format, cell = post count (0 when the combination is absent).
Post counts are never NaN, so pivot_table's dropna drops nothing. -/
def formatPostCount (sdf : List Row) : List (String × List (String × Nat)) :=
  let long := formatLong sdf
  let brands := sortedStrings (long.map (fun e => e.1.1))
  let cols := sortedStrings (long.map (fun e => e.1.2))
  brands.map (fun b => (b, cols.map (fun f => (f, postCountCell long b f))))

/-- The post-count pivot's column list after reset_index: "brand" first,
then the formats in sorted order. -/
def postCountColumns (sdf : List Row) : List String :=
  "brand" :: sortedStrings ((formatLong sdf).map (fun e => e.1.2))

/-- Line 203's designated volume column: "Video" when that column exists,
otherwise columns[1].  On an input with no format columns at all pandas
would raise an IndexError at columns[1]; the embedding returns the getD
default there, a case no claim exercises. -/
def postCountVolCol (sdf : List Row) : String :=
  if "Video" ∈ postCountColumns sdf then "Video"
  else (postCountColumns sdf).getD 1 "brand"

/-- The volume of one post-count row: its cell in the designated column
(every row carries every column, so the getD default is never reached). -/
def postCountVolume (sdf : List Row) (row : String × List (String × Nat)) : Nat :=
  (row.2.lookup (postCountVolCol sdf)).getD 0

/-- `outputs[scope + "_Format_PostCount"]` (src/app.py line 203). -/
def formatPostCountOut (sdf : List Row) : List (String × List (String × Nat)) :=
  sortBrands Prod.fst (postCountVolume sdf) (formatPostCount sdf)

/-- The long rows with a defined rate.  pivot_table with the default
dropna=True drops the (brand, format) aggregates that are NaN before
unstacking, so only these rows determine the AvgER pivot's index values
and columns. -/
def definedAvgER (long : List ((String × String) × FormatMetrics)) :
    List ((String × String) × ℚ) :=
  long.filterMap (fun e => (e.2.avgER).map (fun q => (e.1, q)))

/-- One cell of the AvgER pivot after `.fillna("-")` (src/app.py lines
191-201): `some` a defined rate, `none` the "-" placeholder written over
every NaN cell (absent combination or undefined rate). -/
def avgERCell (long : List ((String × String) × FormatMetrics))
    (b f : String) : Option ℚ :=
  ((definedAvgER long).find? (fun e => decide (e.1 = (b, f)))).map (fun e => e.2)

/-- `format_avg_er` (src/app.py lines 191-201): one row per brand with at
least one defined rate, one column per format with at least one defined
rate, cells filled with "-" (here `none`) where undefined. -/
def formatAvgER (sdf : List Row) : List (String × List (String × Option ℚ)) :=
  let long := formatLong sdf
  let brands := sortedStrings ((definedAvgER long).map (fun e => e.1.1))
  let cols := sortedStrings ((definedAvgER long).map (fun e => e.1.2))
  brands.map (fun b => (b, cols.map (fun f => (f, avgERCell long b f))))

/-- The AvgER pivot's column list after reset_index. -/
def avgERColumns (sdf : List Row) : List String :=
  "brand" :: sortedStrings ((definedAvgER (formatLong sdf)).map (fun e => e.1.2))

/-- Line 204's designated volume column: columns[1], the first data
column.  As at line 203, pandas would raise an IndexError when no data
column exists; the embedding returns the getD default there. -/
def avgERVolCol (sdf : List Row) : String :=
  (avgERColumns sdf).getD 1 "brand"

/-- Sort key of an Avg ER% cell.  pandas `sort_values` compares the raw
cells and raises a TypeError when the designated column mixes numbers with
the "-" string; on every input where line 204 does not raise — a column of
only numbers, or of only "-" — this key orders exactly as pandas does
(numbers by value, placeholder cells mutually tied).  The embedding
totalizes the mixed case by placing "-" below every number. -/
def erCellKey (c : Option ℚ) : WithBot ℚ :=
  match c with
  | some q => (q : WithBot ℚ)
  | none => ⊥

/-- The volume of one AvgER row: its cell in the designated column (every
row carries every column, so the getD default is never reached). -/
def avgERVolume (sdf : List Row) (row : String × List (String × Option ℚ)) :
    WithBot ℚ :=
  erCellKey ((row.2.lookup (avgERVolCol sdf)).getD none)

/-- `outputs[scope + "_Format_AvgER"]` (src/app.py line 204). -/
def formatAvgEROut (sdf : List Row) : List (String × List (String × Option ℚ)) :=
  sortBrands Prod.fst (avgERVolume sdf) (formatAvgER sdf)

/-! ### Concrete rows used by scenario conjuncts and witnesses -/

/-- Spec scenario for C1: dynamic post, views 100, engagement 20. -/
def c1v1 : Row :=
  { platform := "IG", brand := "Acme", post_type := "Organic", format := "Video",
    likes := 20, comments := 0, views := 100, followers := 0, engagement := 20,
    week := 1, influencer_tier := "" }

/-- Spec scenario for C1: dynamic post, views 150, engagement 30. -/
def c1v2 : Row :=
  { platform := "IG", brand := "Acme", post_type := "Organic", format := "Shorts",
    likes := 30, comments := 0, views := 150, followers := 0, engagement := 30,
    week := 1, influencer_tier := "" }

/-- Spec scenario for C1: static post, followers 500, engagement 10. -/
def c1s : Row :=
  { platform := "IG", brand := "Acme", post_type := "Organic", format := "Image",
    likes := 10, comments := 0, views := 0, followers := 500, engagement := 10,
    week := 1, influencer_tier := "" }

/-- A dynamic-format row whose group has zero views (for C2). -/
def c2zeroViews : Row :=
  { platform := "IG", brand := "Acme", post_type := "Organic", format := "Video",
    likes := 7, comments := 0, views := 0, followers := 40, engagement := 7,
    week := 1, influencer_tier := "" }

/-! ### C1 -/

unseal Rat.add Rat.mul Rat.inv in
/-- C1: in an overall (not format-split) table the reported engagement rate
is the dynamic-subset engagement sum divided by the dynamic-subset views
sum — static-format rows contribute neither engagement nor followers to
either side — and it is the sentinel `none` when the dynamic-subset views
sum is not positive, in particular when the group has no dynamic rows.
The spec's scenario group (views 100+150, engagement 20+30, plus one static
post with followers 500 and engagement 10) gets rate 1/5. -/
theorem c1_overall_rate (g : List Row) (r : Row) :
    ((overall_metrics g).avgER =
      (if 0 < dynViews g then some (dynEng g / dynViews g) else none)) ∧
    (r.is_dynamic = false →
      (overall_metrics (r :: g)).avgER = (overall_metrics g).avgER) ∧
    (g.filter Row.is_dynamic = [] → (overall_metrics g).avgER = none) ∧
    (overall_metrics [c1v1, c1v2, c1s]).avgER = some (1 / 5) := by
  refine ⟨rfl, ?_, ?_, by decide⟩
  · intro h
    simp [overall_metrics, dynEng, dynViews, sumEng, sumViews, List.filter_cons, h]
  · intro h
    simp [overall_metrics, dynEng, dynViews, sumEng, sumViews, h]

/-- Witness for C1: discharging the hypotheses at concrete groups — adding
the static scenario row to the two dynamic scenario rows leaves the rate
unchanged, and a group with no dynamic rows has rate `none`. -/
theorem c1_overall_rate_witness :
    ((overall_metrics (c1s :: [c1v1, c1v2])).avgER =
      (overall_metrics [c1v1, c1v2]).avgER) ∧
    (overall_metrics [c1s]).avgER = none :=
  ⟨(c1_overall_rate [c1v1, c1v2] c1s).2.1 (by decide),
   (c1_overall_rate [c1s] c1s).2.2.1 (by decide)⟩

/-! ### C2 -/

/-- C2: in a per-format table, a group whose (shared) format is dynamic is
rated engagement/views, any other format engagement/followers; when the
relevant denominator sums to zero the rate is the sentinel `none` — never
zero — and the computation never fails (a nonempty group always yields a
result). -/
theorem c2_format_rate (g : List Row) (f : String) (h1 : g ≠ [])
    (h2 : ∀ r ∈ g, r.format = f) :
    ∃ m, format_metrics g = some m ∧
      (f ∈ DYNAMIC_FORMATS →
        m.avgER = (if 0 < sumViews g then some (sumEng g / sumViews g) else none) ∧
        (sumViews g = 0 → m.avgER = none)) ∧
      (f ∉ DYNAMIC_FORMATS →
        m.avgER = (if 0 < sumFoll g then some (sumEng g / sumFoll g) else none) ∧
        (sumFoll g = 0 → m.avgER = none)) := by
  cases g with
  | nil => exact absurd rfl h1
  | cons r0 rest =>
    have hf : r0.format = f := h2 r0 (List.mem_cons_self r0 rest)
    refine ⟨_, rfl, ?_, ?_⟩
    · intro hd
      have hd0 : r0.format ∈ DYNAMIC_FORMATS := by rw [hf]; exact hd
      constructor
      · show (if r0.format ∈ DYNAMIC_FORMATS then _ else _) = _
        rw [if_pos hd0]
      · intro hv
        show (if r0.format ∈ DYNAMIC_FORMATS then _ else _) = none
        rw [if_pos hd0, hv, if_neg (lt_irrefl (0 : ℚ))]
    · intro hd
      have hd0 : r0.format ∉ DYNAMIC_FORMATS := by rw [hf]; exact hd
      constructor
      · show (if r0.format ∈ DYNAMIC_FORMATS then _ else _) = _
        rw [if_neg hd0]
      · intro hv
        show (if r0.format ∈ DYNAMIC_FORMATS then _ else _) = none
        rw [if_neg hd0, hv, if_neg (lt_irrefl (0 : ℚ))]

/-- Witness for C2: a one-row Video group with zero views evaluates to a
defined result whose rate is the sentinel `none`. -/
theorem c2_format_rate_witness :
    ∃ m, format_metrics [c2zeroViews] = some m ∧
      ("Video" ∈ DYNAMIC_FORMATS →
        m.avgER = (if 0 < sumViews [c2zeroViews] then
          some (sumEng [c2zeroViews] / sumViews [c2zeroViews]) else none) ∧
        (sumViews [c2zeroViews] = 0 → m.avgER = none)) ∧
      ("Video" ∉ DYNAMIC_FORMATS →
        m.avgER = (if 0 < sumFoll [c2zeroViews] then
          some (sumEng [c2zeroViews] / sumFoll [c2zeroViews]) else none) ∧
        (sumFoll [c2zeroViews] = 0 → m.avgER = none)) :=
  c2_format_rate [c2zeroViews] "Video" (by simp) (by decide)

/-! ### C3 and C8 -/

/-- C3: `sort_brands` permutes the rows into an order whose every earlier/
later pair satisfies: a priority-list row never sits below a row it should
precede (later row priority implies earlier row priority), priority rows are
in priority-list index order regardless of volume, and non-priority rows
are in volume-descending order; rows tying on the whole sort key (same
priority, same volume) keep their original relative order (stable sort). -/
theorem c3_brand_ranker_order {α β : Type} [LinearOrder β]
    (brandOf : α → String) (vol : α → β) (rows : List α) (pk : Nat) (v : β) :
    (sortBrands brandOf vol rows).Perm rows ∧
    (sortBrands brandOf vol rows).Pairwise (rankedAbove brandOf vol) ∧
    (sortBrands brandOf vol rows).filter
        (fun a => decide (priorityKey (brandOf a) = pk ∧ vol a = v)) =
      rows.filter (fun a => decide (priorityKey (brandOf a) = pk ∧ vol a = v)) :=
  ⟨sortBrands_perm brandOf vol rows,
   sortBrands_pairwise_rankedAbove brandOf vol rows,
   sortBrands_stable brandOf vol rows pk v⟩

/-- C8: `sort_brands` is idempotent — re-ranking an already ranked table by
the same volume column leaves the row order unchanged. -/
theorem c8_brand_ranker_idem {α β : Type} [LinearOrder β]
    (brandOf : α → String) (vol : α → β) (rows : List α) :
    sortBrands brandOf vol (sortBrands brandOf vol rows) =
      sortBrands brandOf vol rows :=
  List.Sorted.insertionSort_eq (sortBrands_sorted brandOf vol rows)

/-! ### C4 -/

/-- Row for the C4 counterexample: non-priority brand, week 1. -/
def wkRowA : Row :=
  { platform := "IG", brand := "Acme", post_type := "Organic", format := "Image",
    likes := 0, comments := 0, views := 0, followers := 0, engagement := 0,
    week := 1, influencer_tier := "" }

/-- Row for the C4 counterexample: priority brand, week 1. -/
def wkRowS : Row := { wkRowA with brand := "Similac" }

/-- C4 counterexample: at this two-row scope the Weekly table sits in
groupby order (Acme before the priority brand Similac), which is not the
Brand-Ranker order — so the ranking was not applied to it; had line 216
passed the table through `sort_brands`, idempotence would make the table a
fixpoint of `sort_brands`, and it is not. -/
theorem c4_weekly_not_ranked :
    brandWeeklyOut [wkRowA, wkRowS] ≠
      sortBrands (fun g => g.1.1) (fun g => g.2.totalPosts)
        (brandWeeklyOut [wkRowA, wkRowS]) := by decide

/-- C4 amended: the Brand Ranker is applied independently, with each
table's designated volume column, to every produced brand table —
Brand_Overall, Brand_Type, Brand_Source and Influencer_Tier_Analysis by
Total Posts, Format_PostCount by its "Video"-or-first column,
Format_AvgER by its first data column — each a permutation of its grouped
or pivoted base table in ranked order — but the per-scope Brand_Weekly
tables are emitted exactly as groupby produced them, without ranking. -/
theorem c4_ranking_tables (sdf df : List Row) :
    (brandOverallOut sdf).Perm (overallTable sdf) ∧
    (brandOverallOut sdf).Pairwise
      (rankedAbove Prod.fst (fun g => g.2.totalPosts)) ∧
    (formatPostCountOut sdf).Perm (formatPostCount sdf) ∧
    (formatPostCountOut sdf).Pairwise
      (rankedAbove Prod.fst (postCountVolume sdf)) ∧
    (formatAvgEROut sdf).Perm (formatAvgER sdf) ∧
    (formatAvgEROut sdf).Pairwise
      (rankedAbove Prod.fst (avgERVolume sdf)) ∧
    (brandTypeOut sdf).Perm (typeTable sdf) ∧
    (brandTypeOut sdf).Pairwise
      (rankedAbove (fun g => g.1.1) (fun g => g.2.totalPosts)) ∧
    (brandSourceOut sdf).Perm (sourceTable sdf) ∧
    (brandSourceOut sdf).Pairwise
      (rankedAbove (fun g => g.1.1) (fun g => g.2.totalPosts)) ∧
    (influencerTierOut df).Perm (tierTable df) ∧
    (influencerTierOut df).Pairwise
      (rankedAbove (fun g => g.1.1) (fun g => g.2.totalPosts)) ∧
    brandWeeklyOut sdf = weeklyTable sdf :=
  ⟨sortBrands_perm _ _ _, sortBrands_pairwise_rankedAbove _ _ _,
   sortBrands_perm _ _ _, sortBrands_pairwise_rankedAbove _ _ _,
   sortBrands_perm _ _ _, sortBrands_pairwise_rankedAbove _ _ _,
   sortBrands_perm _ _ _, sortBrands_pairwise_rankedAbove _ _ _,
   sortBrands_perm _ _ _, sortBrands_pairwise_rankedAbove _ _ _,
   sortBrands_perm _ _ _, sortBrands_pairwise_rankedAbove _ _ _, rfl⟩

/-! ### C5 -/

/-- Raw row whose likes cell is a parseable negative number. -/
def negRaw : RawRow :=
  { platform := "IG", brand := some "Acme", post_type := some "Organic",
    format := some "Image", likes := RawCell.num (-5),
    comments := RawCell.num 2, views := RawCell.na,
    followers := RawCell.num 500, week := 1, influencer_tier := "" }

unseal Rat.add Rat.mul Rat.inv in
/-- C5 counterexample: to_numeric + fillna(0) keeps a parseable negative
cell negative, so the normalized table is not always non-negative. -/
theorem c5_negative_survives : (normalizeRow negRaw).likes < 0 := by decide

/-- C5 amended: the four numeric fields are exactly the coerced raw cells;
an unparseable cell becomes exactly 0 and coercion is total (never an
error); a parsed value is preserved as-is, so the fields are non-negative
precisely when every parseable raw value is non-negative — a parseable
negative value survives negative. -/
theorem c5_coercion (r : RawRow) :
    ((normalizeRow r).likes = coerceCell r.likes ∧
     (normalizeRow r).comments = coerceCell r.comments ∧
     (normalizeRow r).views = coerceCell r.views ∧
     (normalizeRow r).followers = coerceCell r.followers) ∧
    coerceCell RawCell.na = 0 ∧
    (∀ v : ℚ, coerceCell (RawCell.num v) = v) ∧
    (∀ c : RawCell, (∀ v : ℚ, c = RawCell.num v → 0 ≤ v) → 0 ≤ coerceCell c) := by
  refine ⟨⟨rfl, rfl, rfl, rfl⟩, rfl, fun v => rfl, ?_⟩
  intro c hc
  cases c with
  | num v => exact hc v rfl
  | na => exact le_refl 0

/-- Witness for C5 amended: the non-negativity conjunct applied to a
concrete non-negative parsed cell. -/
theorem c5_coercion_witness : (0 : ℚ) ≤ coerceCell (RawCell.num 500) :=
  (c5_coercion negRaw).2.2.2 (RawCell.num 500) (fun v hv => by
    cases hv; norm_num)

/-! ### C6 -/

theorem accessColumns_ok_iff (cs cols : List String) :
    accessColumns cs cols = .ok () ↔ ∀ c ∈ cs, cols.contains c = true := by
  induction cs with
  | nil => simp [accessColumns]
  | cons c cs ih =>
    unfold accessColumns
    by_cases hc : cols.contains c = true
    · rw [if_pos hc, ih]
      constructor
      · intro h d hd
        rcases List.mem_cons.mp hd with rfl | hd2
        · exact hc
        · exact h d hd2
      · intro h d hd
        exact h d (List.mem_cons_of_mem c hd)
    · rw [if_neg hc]
      constructor
      · intro h
        exact Except.noConfusion h
      · intro h
        exact absurd (h c (List.mem_cons_self c cs)) hc

theorem accessColumns_error (cs cols : List String) (c : String)
    (h : accessColumns cs cols = .error (.keyErr c)) :
    cols.contains c = false ∧ c ∈ cs := by
  induction cs with
  | nil => exact Except.noConfusion h
  | cons d cs ih =>
    unfold accessColumns at h
    by_cases hd : cols.contains d = true
    · rw [if_pos hd] at h
      obtain ⟨h1, h2⟩ := ih h
      exact ⟨h1, List.mem_cons_of_mem d h2⟩
    · rw [if_neg hd] at h
      have hdc : d = c := by
        injection h with h1
        injection h1
      subst hdc
      exact ⟨Bool.not_eq_true _ ▸ (eq_false_of_ne_true hd), List.mem_cons_self d cs⟩

/-- The raw headers of an otherwise complete upload that lacks "Likes". -/
def missingHeaders : List String :=
  ["Social Channel/Platform", "Brand Name/Category Name",
   "Type of Post (Branded, Influencer,Creators, Organic, Shop)",
   "Post Format (Video, Reels, Shorts, Images, Carousels)",
   "Video Plays", "Followers", "Comments", "Week", "Influencer Tier"]

/-- C6 counterexample: with "Likes" absent the run does abort before any
output, but with the pandas KeyError raised by the coercion loop's column
access — the script defines no MissingColumnError class at all (its error
type here has only the KeyError shape). -/
theorem c6_missing_column_keyerror :
    loadTable missingHeaders [] = Except.error (ColError.keyErr "Likes") := rfl

/-- C6 amended: the load stage succeeds exactly when every required
canonical column is present after the rename; otherwise it aborts, before
any table exists, with a pandas KeyError naming the first genuinely absent
required column — not with a MissingColumnError, which the code never
defines. -/
theorem c6_load_failure (rawCols : List String) (rows : List RawRow) :
    (accessColumns NUMERIC_COLS (renameColumns rawCols) = Except.ok () ↔
      ∀ c ∈ NUMERIC_COLS, (renameColumns rawCols).contains c = true) ∧
    (∀ c, accessColumns NUMERIC_COLS (renameColumns rawCols) =
        Except.error (ColError.keyErr c) →
      (renameColumns rawCols).contains c = false ∧ c ∈ NUMERIC_COLS) ∧
    (∀ e, accessColumns NUMERIC_COLS (renameColumns rawCols) = Except.error e →
      loadTable rawCols rows = Except.error e) := by
  refine ⟨accessColumns_ok_iff _ _, fun c h => accessColumns_error _ _ c h, ?_⟩
  intro e he
  unfold loadTable
  rw [he]

/-- Witness for C6 amended: at the concrete header list lacking "Likes",
the named column is genuinely absent, is required, and the whole load stage
aborts with that error. -/
theorem c6_load_failure_witness :
    ((renameColumns missingHeaders).contains "Likes" = false ∧
      "Likes" ∈ NUMERIC_COLS) ∧
    loadTable missingHeaders [] = Except.error (ColError.keyErr "Likes") :=
  ⟨(c6_load_failure missingHeaders []).2.1 "Likes" rfl,
   (c6_load_failure missingHeaders []).2.2 (ColError.keyErr "Likes") rfl⟩

/-! ### C7 -/

/-- The spec's normalization scenario row (no surrounding whitespace on
post_type and format). -/
def specRaw : RawRow :=
  { platform := "IG", brand := some "similac ", post_type := some "tagged",
    format := some "reels", likes := RawCell.num 10,
    comments := RawCell.num 5, views := RawCell.num 100,
    followers := RawCell.num 0, week := 1, influencer_tier := "" }

/-- The same row with surrounding whitespace on post_type and format. -/
def wsRaw : RawRow :=
  { specRaw with post_type := some " tagged ", format := some " reels " }

unseal Rat.add Rat.mul Rat.inv in
/-- C7 counterexample: post_type and format are never trimmed, so the
whitespace-carrying inputs " reels " and " tagged " title-case to
" Reels " and " Tagged " and miss their alias keys — they do NOT normalize
to the canonical "Shorts" and "Influencer". -/
theorem c7_whitespace_defeats_alias :
    (normalizeRow wsRaw).format = " Reels " ∧
    (normalizeRow wsRaw).format ≠ "Shorts" ∧
    (normalizeRow wsRaw).post_type = " Tagged " ∧
    (normalizeRow wsRaw).post_type ≠ "Influencer" := by decide

unseal Rat.add Rat.mul Rat.inv in
/-- C7 amended: brand is trimmed then title-cased with no alias step;
post_type and format are title-cased then alias-substituted with no trim
step; unmapped values pass through unchanged; the spec's whitespace-free
scenario row normalizes exactly as stated. -/
theorem c7_normalization (r : RawRow) (s : String) :
    ((normalizeRow r).brand = pyTitle (pyStrip (pyStr r.brand))) ∧
    ((normalizeRow r).post_type =
      applyAliases postTypeAliases (pyTitle (pyStr r.post_type))) ∧
    ((normalizeRow r).format =
      applyAliases formatAliases (pyTitle (pyStr r.format))) ∧
    (postTypeAliases.lookup s = none → applyAliases postTypeAliases s = s) ∧
    (formatAliases.lookup s = none → applyAliases formatAliases s = s) ∧
    (normalizeRow specRaw).brand = "Similac" ∧
    (normalizeRow specRaw).post_type = "Influencer" ∧
    (normalizeRow specRaw).format = "Shorts" ∧
    (normalizeRow specRaw).engagement = 15 ∧
    (normalizeRow specRaw).is_dynamic = true ∧
    (normalizeRow specRaw).is_paid = true := by
  refine ⟨rfl, rfl, rfl, ?_, ?_, by decide, by decide, by decide, by decide,
    by decide, by decide⟩
  · intro h
    unfold applyAliases
    rw [h]
  · intro h
    unfold applyAliases
    rw [h]

/-- Witness for C7 amended: the pass-through conjuncts applied to concrete
unmapped values. -/
theorem c7_normalization_witness :
    applyAliases postTypeAliases "Organic" = "Organic" ∧
    applyAliases formatAliases "Carousel" = "Carousel" :=
  ⟨(c7_normalization specRaw "Organic").2.2.2.1 rfl,
   (c7_normalization specRaw "Carousel").2.2.2.2.1 rfl⟩

/-! ### C9 -/

theorem notMem_filter_of_pred_false {α : Type} {p : α → Bool} {df : List α}
    {r : α} (h : p r = false) : r ∉ df.filter p := by
  intro hm
  have h2 := (List.mem_filter.mp hm).2
  rw [h] at h2
  exact Bool.noConfusion h2

theorem filter_cons_of_pred_false {α : Type} {p : α → Bool} (df : List α)
    {r : α} (h : p r = false) : (r :: df).filter p = df.filter p := by
  rw [List.filter_cons, h]
  simp

/-- C9: a row whose normalized post_type is none of Organic, Branded,
Influencer, Creator, Shop belongs to no content scope, including the
Influencer-tier source, and inserting such a row into the frame leaves
every scope — hence every table built from them — unchanged. -/
theorem c9_unscoped_rows (df : List Row) (r : Row)
    (h : r.post_type ∉ SCOPED_TYPES) :
    (r ∉ paidScope df ∧ r ∉ organicScope df ∧ r ∉ brandedScope df ∧
     r ∉ influencerScope df ∧ r ∉ creatorScope df ∧ r ∉ tierSourceRows df) ∧
    (paidScope (r :: df) = paidScope df ∧
     organicScope (r :: df) = organicScope df ∧
     brandedScope (r :: df) = brandedScope df ∧
     influencerScope (r :: df) = influencerScope df ∧
     creatorScope (r :: df) = creatorScope df ∧
     tierSourceRows (r :: df) = tierSourceRows df) := by
  have h1 : r.post_type ≠ "Organic" := fun he => h (by rw [he]; decide)
  have h2 : r.post_type ≠ "Branded" := fun he => h (by rw [he]; decide)
  have h3 : r.post_type ≠ "Influencer" := fun he => h (by rw [he]; decide)
  have h4 : r.post_type ≠ "Creator" := fun he => h (by rw [he]; decide)
  have hp : r.is_paid = false := by
    apply decide_eq_false
    intro hmem
    simp only [PAID_TYPES, List.mem_cons, List.mem_singleton] at hmem
    rcases hmem with he | he | he | (he | hf)
    · exact h2 he
    · exact h3 he
    · exact h4 he
    · exact h (by rw [he]; decide)
    · exact List.not_mem_nil r.post_type hf
  have ho : (decide (r.post_type = "Organic")) = false := decide_eq_false h1
  have hb : (decide (r.post_type = "Branded")) = false := decide_eq_false h2
  have hi : (decide (r.post_type = "Influencer")) = false := decide_eq_false h3
  have hc : (decide (r.post_type = "Creator")) = false := decide_eq_false h4
  exact ⟨⟨notMem_filter_of_pred_false hp, notMem_filter_of_pred_false ho,
      notMem_filter_of_pred_false hb, notMem_filter_of_pred_false hi,
      notMem_filter_of_pred_false hc, notMem_filter_of_pred_false hi⟩,
    filter_cons_of_pred_false df hp, filter_cons_of_pred_false df ho,
    filter_cons_of_pred_false df hb, filter_cons_of_pred_false df hi,
    filter_cons_of_pred_false df hc, filter_cons_of_pred_false df hi⟩

/-- A normalized row with an unmapped post_type, outside every scope. -/
def c9row : Row :=
  { platform := "IG", brand := "Acme", post_type := "Ugc", format := "Image",
    likes := 0, comments := 0, views := 0, followers := 0, engagement := 0,
    week := 1, influencer_tier := "" }

/-- Witness for C9: the concrete "Ugc" row is in no scope of a one-row
frame, and consing it onto a frame changes no scope. -/
theorem c9_unscoped_rows_witness :
    (c9row ∉ paidScope [c9row] ∧ c9row ∉ organicScope [c9row] ∧
     c9row ∉ brandedScope [c9row] ∧ c9row ∉ influencerScope [c9row] ∧
     c9row ∉ creatorScope [c9row] ∧ c9row ∉ tierSourceRows [c9row]) ∧
    (paidScope (c9row :: [c9row]) = paidScope [c9row] ∧
     organicScope (c9row :: [c9row]) = organicScope [c9row] ∧
     brandedScope (c9row :: [c9row]) = brandedScope [c9row] ∧
     influencerScope (c9row :: [c9row]) = influencerScope [c9row] ∧
     creatorScope (c9row :: [c9row]) = creatorScope [c9row] ∧
     tierSourceRows (c9row :: [c9row]) = tierSourceRows [c9row]) :=
  c9_unscoped_rows [c9row] c9row (by decide)

/-! ### C10 -/

/-- A raw row whose brand cell is missing. -/
def nanRaw : RawRow :=
  { platform := "IG", brand := none, post_type := some "Organic",
    format := some "Image", likes := RawCell.na, comments := RawCell.na,
    views := RawCell.na, followers := RawCell.na, week := 1,
    influencer_tier := "" }

/-- C10: a row with a missing brand cell is kept — its brand stringifies
and title-cases to the literal "Nan" — "Nan" is not a priority brand (its
priority key is the off-list value), the row forms its own "Nan" brand
group in a grouped table, and in any ranked table "Nan" rows sit in the
non-priority segment, ordered against other non-priority rows by volume. -/
theorem c10_nan_brand {α β : Type} [LinearOrder β] (brandOf : α → String)
    (vol : α → β) (rows : List α) (r : RawRow) (h : r.brand = none)
    (df : List Row) (w : Row) (hw : w ∈ df) (hwb : w.brand = "Nan") :
    (normalizeRow r).brand = "Nan" ∧
    "Nan" ∉ PRIORITY_BRANDS ∧
    priorityKey "Nan" = PRIORITY_BRANDS.length ∧
    ("Nan", df.filter (fun x => decide (Row.brand x = "Nan"))) ∈
      groupPairs strLeB Row.brand df ∧
    (sortBrands brandOf vol rows).Pairwise (fun a b =>
      (brandOf a = "Nan" → brandOf b ∈ PRIORITY_BRANDS → False) ∧
      (brandOf a ∉ PRIORITY_BRANDS → brandOf b = "Nan" → vol b ≤ vol a) ∧
      (brandOf a = "Nan" → brandOf b ∉ PRIORITY_BRANDS → vol b ≤ vol a)) := by
  have hnan : "Nan" ∉ PRIORITY_BRANDS := by decide
  refine ⟨?_, hnan, by decide, ?_, ?_⟩
  · show pyTitle (pyStrip (pyStr r.brand)) = "Nan"
    rw [h]
    decide
  · have h1 : "Nan" ∈ df.map Row.brand := List.mem_map.mpr ⟨w, hw, hwb⟩
    have h2 : "Nan" ∈ (df.map Row.brand).dedup := List.mem_dedup.mpr h1
    have h3 : "Nan" ∈ List.insertionSort (fun x y => strLeB x y = true)
        ((df.map Row.brand).dedup) :=
      (List.mem_insertionSort (fun x y => strLeB x y = true)).mpr h2
    exact List.mem_map.mpr ⟨"Nan", h3, rfl⟩
  · refine (sortBrands_pairwise_rankedAbove brandOf vol rows).imp ?_
    intro a b hab
    obtain ⟨g1, g2, g3⟩ := hab
    refine ⟨?_, ?_, ?_⟩
    · intro ha hb
      apply hnan
      rw [← ha]
      exact g1 hb
    · intro ha hb
      exact g3 ha (by rw [hb]; exact hnan)
    · intro ha hb
      exact g3 (by rw [ha]; exact hnan) hb

/-- Witness for C10: the concrete missing-brand raw row normalizes to
brand "Nan", and the one-row frame containing it has a "Nan" group. -/
theorem c10_nan_brand_witness :
    (normalizeRow nanRaw).brand = "Nan" ∧
    ("Nan", [normalizeRow nanRaw].filter (fun x => decide (Row.brand x = "Nan"))) ∈
      groupPairs strLeB Row.brand [normalizeRow nanRaw] :=
  ⟨(c10_nan_brand (id : String → String) (fun _ => (0 : Nat)) [] nanRaw rfl
      [normalizeRow nanRaw] (normalizeRow nanRaw)
      (List.mem_cons_self _ _) (by decide)).1,
   (c10_nan_brand (id : String → String) (fun _ => (0 : Nat)) [] nanRaw rfl
      [normalizeRow nanRaw] (normalizeRow nanRaw)
      (List.mem_cons_self _ _) (by decide)).2.2.2.1⟩

end App
